import Mathlib

/-!
Verification of the ombi ERP model layer: a shallow embedding, in Lean 4, of
the business logic of the Django model methods in `requisitions/models.py`,
`stores/models.py`, `cashflow/models.py` and `tally/models.py`, together with
proofs of the behavioural properties claimed for them.

Conventions of the embedding:
* money decimals and exchange-rate decimals become exact rationals (`ℚ`);
* a `MoneyField` value becomes a `Money` record (numeric value + currency);
* nullable columns become `Option`; Python truthiness of an optional
  `Money` (falsy when `None` or when the numeric amount is zero, following
  the `Money` class of the underlying money library) is `moneyTruthy`;
* an ORM table becomes an explicit list of rows passed to the operation,
  and `save` methods become pure state transformers; a method that can
  raise becomes `Except String _`, or `Except PyExc _` where the class of
  the raised exception matters (a `FieldError` from a query keyword that
  does not resolve against a model's columns, a `NameError` from a name the
  module never imports, a `ValidationError`, a `ValueError`);
* dates become integers, users and warehouses become natural-number ids.
-/

namespace Ombi

/-- The currencies of `groups.models.CURRENCY_CHOICES`. -/
inductive Currency
  | USD
  | EUR
  | CDF
deriving DecidableEq, Repr

/-- A money value: the numeric amount together with its currency, as carried
by a `MoneyField`. -/
structure Money where
  value : ℚ
  currency : Currency
deriving DecidableEq, Repr

/-- Multiplication of a money value by a decimal (`Money.__mul__`): scales the
numeric amount; the currency is unchanged. -/
def Money.mulRate (m : Money) (r : ℚ) : Money :=
  ⟨m.value * r, m.currency⟩

/-- Reassignment of the `.currency` attribute of a money value, as done by
`AccountTransfer.save`. -/
def Money.withCurrency (m : Money) (c : Currency) : Money :=
  ⟨m.value, c⟩

/-- Python truthiness of an optional money value: `None` is falsy, and a
`Money` is falsy exactly when its numeric amount is zero (the money class
defines its boolean coercion as the boolean coercion of the amount). -/
def moneyTruthy : Option Money → Bool
  | none => false
  | some m => m.value != 0

/-- Modelled from the spec: the `convert_to` operation of a money value, used
by `Order.save`, `TransactionItem.save` and `generate_trial_balance`, is not
among the provided sources; following the spec's conversion contract
(`convert(amount, from, to, rate)` with converted = amount × rate) and its
worked example (100 USD at rate 2500 saved in CDF gives 250000 CDF), it
scales the amount by the rate and re-expresses it in the target currency. -/
def convert_to (m : Money) (target : Currency) (rate : ℚ) : Money :=
  ⟨m.value * rate, target⟩

/-- A row of the `groups.models.ExchangeRate` table. -/
structure ExchangeRate where
  source_currency : Currency
  target_currency : Currency
  rate : ℚ
deriving DecidableEq, Repr

/-- Exact-match lookup in the `ExchangeRate` table
(`ExchangeRate.objects.get(source_currency=…, target_currency=…)`); `none`
models `ExchangeRate.DoesNotExist`. -/
def lookupRate (db : List ExchangeRate) (src tgt : Currency) : Option ℚ :=
  (db.find? fun e => e.source_currency == src && e.target_currency == tgt).map
    ExchangeRate.rate

/-!
### Requisition approval routing
`RequisitionApprovalWorkflow.get_next_approver` walks the `reports_to` chain
of the given user upward and returns the first ancestor holding the
`requisition.can_approve` permission, or `None` when the chain is exhausted.
Users are natural-number ids; the identity collaborator supplies
`reports_to : Nat → Option Nat` and `has_perm : Nat → Bool`.  The Python
`while` loop is embedded with a fuel argument; any fuel exceeding the length
of the (finite) reporting chain yields the loop's exact result.
-/

/-- `RequisitionApprovalWorkflow.get_next_approver`, fuelled: starting from
`current`, repeatedly step to `reports_to current`; return the first step
target that exists and holds the permission, and `none` once the chain runs
out. -/
def get_next_approver (reports_to : Nat → Option Nat) (has_perm : Nat → Bool) :
    Nat → Nat → Option Nat
  | 0, _ => none
  | fuel + 1, current =>
    match reports_to current with
    | none => none
    | some next =>
      if has_perm next then some next
      else get_next_approver reports_to has_perm fuel next

/-- `ReportingChain reports_to u l` states that `l` is the full chain of
strict ancestors of `u`: `reports_to u` is the head, each element reports to
the next, and the last element has no manager. -/
def ReportingChain (reports_to : Nat → Option Nat) : Nat → List Nat → Prop
  | u, [] => reports_to u = none
  | u, m :: ms => reports_to u = some m ∧ ReportingChain reports_to m ms

/-- C1: for a requester whose reporting chain is `R → M1 → … → Mk`, the
approver-resolution function returns the first strict ancestor in the chain
holding the can-approve permission (`List.find?` over the ancestor list), and
`none` when no ancestor holds it. -/
theorem get_next_approver_first_qualified_ancestor
    (reports_to : Nat → Option Nat) (has_perm : Nat → Bool)
    (u : Nat) (chain : List Nat) (fuel : Nat)
    (hchain : ReportingChain reports_to u chain)
    (hfuel : chain.length < fuel) :
    get_next_approver reports_to has_perm fuel u = chain.find? has_perm := by
  induction chain generalizing u fuel with
  | nil =>
    match fuel, hfuel with
    | f + 1, _ =>
      simp only [ReportingChain] at hchain
      simp [get_next_approver, hchain]
  | cons m ms ih =>
    match fuel, hfuel with
    | f + 1, hfuel =>
      obtain ⟨hstep, hrest⟩ := hchain
      have hf : ms.length < f := by
        simpa [Nat.succ_lt_succ_iff] using hfuel
      cases hp : has_perm m with
      | true =>
        simp [get_next_approver, hstep, hp, List.find?]
      | false =>
        simp [get_next_approver, hstep, hp, List.find?, ih m f hrest hf]

/-- Concrete reporting hierarchy for the routing example: requester `0`
reports to `1`, who reports to `2`, who has no manager. -/
def exReportsTo : Nat → Option Nat
  | 0 => some 1
  | 1 => some 2
  | _ => none

/-- Concrete permission assignment: only user `2` holds can-approve. -/
def exHasPerm : Nat → Bool
  | 2 => true
  | _ => false

/-- Witness for C1 at the claim's own example: chain `0 → 1 → 2` with only
`2` holding the permission resolves approver `2` (and not `1`). -/
theorem get_next_approver_first_qualified_ancestor_witness :
    ReportingChain exReportsTo 0 [1, 2] ∧ (1 : Nat) ≠ 2 ∧
      get_next_approver exReportsTo exHasPerm 3 0 = some 2 := by
  refine ⟨⟨rfl, rfl, rfl⟩, by decide, ?_⟩
  have h := get_next_approver_first_qualified_ancestor exReportsTo exHasPerm
    0 [1, 2] 3 ⟨rfl, rfl, rfl⟩ (by decide)
  simpa [List.find?, exHasPerm] using h

/-!
### Requisition: status, workflow state and `save`
`Requisition.save` (requisitions/models.py): when the status is `submitted`
and `amount_converted` is falsy, set `amount_converted := amount *
exchange_rate` (a money-by-decimal product, so the currency of `amount` is
kept); then, when the record has no primary key yet, set the workflow state
to the workflow's initial (Draft) state; then persist, which assigns a fresh
primary key to a record that had none.
-/

/-- The two values of `Requisition.STATUS_CHOICES`. -/
inductive ReqStatus
  | draft
  | submitted
deriving DecidableEq, Repr

/-- The five states of `RequisitionApprovalWorkflow`. -/
inductive ReqState
  | initial_state
  | shared
  | submitted
  | approved
  | rejected
deriving DecidableEq, Repr

/-- A `Requisition` record: requester id, narration, USD amount, decimal
exchange rate, nullable converted amount, status, workflow state, and the
nullable primary key. -/
structure Requisition where
  pk : Option Nat
  requester : Nat
  narration : String
  amount : Money
  exchange_rate : ℚ
  amount_converted : Option Money
  status : ReqStatus
  state : ReqState
deriving DecidableEq, Repr

/-- `Requisition.save`: the conditional computation of `amount_converted`,
the initialisation of the workflow state on a record without a primary key,
and the key assignment performed by the persistence layer (`newPk` is the key
the insert would allocate; an existing key is kept). -/
def Requisition.save (r : Requisition) (newPk : Nat) : Requisition :=
  let r1 :=
    if r.status = ReqStatus.submitted ∧ moneyTruthy r.amount_converted = false then
      { r with amount_converted := some (r.amount.mulRate r.exchange_rate) }
    else r
  let r2 :=
    if r1.pk = none then { r1 with state := ReqState.initial_state } else r1
  { r2 with pk := some (r2.pk.getD newPk) }

/-- A submitted requisition whose amount is zero: its first save stores a
zero `amount_converted`, which Python truthiness treats as unset. -/
def reqZero : Requisition :=
  { pk := some 1
    requester := 0
    narration := "zero"
    amount := ⟨0, Currency.USD⟩
    exchange_rate := 2
    amount_converted := none
    status := ReqStatus.submitted
    state := ReqState.submitted }

/-- Counterexample to C2 as stated: after a first submitted save of `reqZero`
the stored `amount_converted` is `0`; a subsequent save with the amount
changed to `100` recomputes it to `200`, so a subsequent save does not leave
the stored `amount_converted` unchanged (the guard `not amount_converted`
treats a stored zero money value as unset). -/
theorem requisition_amount_converted_recomputed_when_zero :
    (reqZero.save 1).amount_converted = some ⟨0, Currency.USD⟩ ∧
      (({ reqZero.save 1 with amount := ⟨100, Currency.USD⟩ } : Requisition).save 1).amount_converted
        = some ⟨200, Currency.USD⟩ := by
  have h0 : (0 : ℚ) * 2 = 0 := by norm_num
  have h2 : (100 : ℚ) * 2 = 200 := by norm_num
  constructor
  · simp [Requisition.save, reqZero, moneyTruthy, Money.mulRate, h0]
  · simp [Requisition.save, reqZero, moneyTruthy, Money.mulRate, h0, h2]

/-- C2 (amended): on a save with status `submitted`, `amount_converted` is
set to `amount × exchange_rate` when the stored value is falsy (`None` or
zero), and any stored nonzero value is left unchanged by every save, even one
that changed `amount` or `exchange_rate`. -/
theorem requisition_amount_converted_write_once
    (r : Requisition) (k : Nat) :
    (r.status = ReqStatus.submitted → moneyTruthy r.amount_converted = false →
      (r.save k).amount_converted = some (r.amount.mulRate r.exchange_rate)) ∧
    (∀ m : Money, r.amount_converted = some m → m.value ≠ 0 →
      (r.save k).amount_converted = some m) := by
  constructor
  · intro hs hfalsy
    simp only [Requisition.save]
    by_cases hpk : r.pk = none <;> simp [hpk, hs, hfalsy]
  · intro m hm hmz
    have htruthy : moneyTruthy (some m) = true := by
      simp [moneyTruthy, hmz]
    simp only [Requisition.save]
    by_cases hpk : r.pk = none <;> simp [hpk, htruthy, hm]

/-- The claim's first-submission example: amount `100` USD at rate `3/2`. -/
def reqHundred : Requisition :=
  { reqZero with amount := ⟨100, Currency.USD⟩, exchange_rate := 3 / 2 }

/-- A requisition holding a stored nonzero converted amount of `150` CDF,
about to be saved with a changed amount and a changed rate. -/
def reqStored : Requisition :=
  { reqZero with
      amount := ⟨999, Currency.USD⟩
      exchange_rate := 7
      amount_converted := some ⟨150, Currency.CDF⟩ }

/-- Witness for C2 (amended), at the claim's own numbers: submitting with
amount `100` and rate `3/2` stores their product; and a stored nonzero `150`
survives a save that changed the amount to `999` and the rate to `7`. -/
theorem requisition_amount_converted_write_once_witness :
    (reqHundred.save 1).amount_converted
        = some (Money.mulRate ⟨100, Currency.USD⟩ (3 / 2)) ∧
      (reqStored.save 1).amount_converted = some ⟨150, Currency.CDF⟩ := by
  constructor
  · exact (requisition_amount_converted_write_once reqHundred 1).1 rfl rfl
  · exact (requisition_amount_converted_write_once reqStored 1).2
      ⟨150, Currency.CDF⟩ rfl (by decide)

/-- C9: a requisition saved with no primary key yet has its workflow state
set to the workflow's initial (Draft) state, whatever state the caller had
supplied. -/
theorem requisition_first_save_starts_in_draft
    (r : Requisition) (k : Nat) (h : r.pk = none) :
    (r.save k).state = ReqState.initial_state := by
  simp only [Requisition.save]
  split <;> simp_all

/-- Witness for C9: a fresh requisition carrying the (caller-supplied) state
`approved` and no primary key is saved into the Draft state. -/
theorem requisition_first_save_starts_in_draft_witness :
    (({ reqZero with pk := none, state := ReqState.approved } :
        Requisition).save 5).state = ReqState.initial_state :=
  requisition_first_save_starts_in_draft
    ({ reqZero with pk := none, state := ReqState.approved }) 5 rfl

/-!
### RequisitionDetails: derived line total
`RequisitionDetails.save` recomputes `total_price := quantity * unit_price`
(an integer-by-money product: the numeric amount is scaled, the currency of
`unit_price` is kept) on every save, before persisting.
-/

/-- A `RequisitionDetails` line: description, quantity, unit price, stored
(non-editable) line total. -/
structure RequisitionDetails where
  description : String
  quantity : Nat
  unit_price : Money
  total_price : Money
deriving DecidableEq, Repr

/-- `RequisitionDetails.save`: recompute the stored total from the current
quantity and unit price, then persist. -/
def RequisitionDetails.save (d : RequisitionDetails) : RequisitionDetails :=
  { d with total_price := ⟨(d.quantity : ℚ) * d.unit_price.value, d.unit_price.currency⟩ }

/-- C10: after every save, the stored line total agrees with the line's
current quantity and unit price — its numeric amount is their product and its
currency is the unit price's currency — so the stored total can never
disagree with the fields it derives from. -/
theorem requisition_details_total_recomputed (d : RequisitionDetails) :
    (d.save).total_price.value = ((d.save).quantity : ℚ) * (d.save).unit_price.value ∧
      (d.save).total_price.currency = (d.save).unit_price.currency ∧
      (d.save).quantity = d.quantity ∧ (d.save).unit_price = d.unit_price :=
  ⟨rfl, rfl, rfl, rfl⟩

/-- The Python exceptions the embedded methods can raise, distinguished by
class: Django's `FieldError` (a query keyword that does not resolve against
a model's columns), Python's `NameError` (an unresolved name), Django's
`ValidationError`, and `ValueError`. -/
inductive PyExc
  | fieldError (msg : String)
  | nameError (msg : String)
  | validationError (msg : String)
  | valueError (msg : String)
deriving DecidableEq, Repr

/-!
### Stock and StockTransfer
A `Stock` row keeps the quantity of an item unit in a warehouse: the table's
columns are `warehouse`, `item_unit` and `quantity` (plus the implicit
`id`); there is no `item` column.  `StockTransfer.clean` and
`StockTransfer.save` nonetheless query `Stock.objects.get(warehouse=…,
item=self.item)` (and `get_or_create` with the same keywords).  The ORM
resolves lookup keywords against the model's columns while building the
query, so the unknown `item` keyword raises `FieldError` before any row is
read, written or created, and the surrounding `except Stock.DoesNotExist`
handlers do not catch it: `clean` performs its quantity and warehouse
validations and then crashes at the stock lookup, and the first approved
`save` crashes before mutating any stock row.
-/

/-- A `Stock` row as declared by the model: warehouse id, item-unit id,
quantity. -/
structure Stock where
  warehouse : Nat
  item_unit : Nat
  quantity : Int
deriving DecidableEq, Repr

/-- The lookup keywords that resolve on the `Stock` model: its columns. -/
def stockFields : List String := ["id", "warehouse", "item_unit", "quantity"]

/-- The exception raised while the stock queries of `StockTransfer.clean`
and `StockTransfer.save` are being built: their `item=…` keyword does not
resolve against `stockFields`, and Django raises `FieldError` at that point,
before any row of the table is consulted. -/
def stockItemKeywordError : PyExc :=
  PyExc.fieldError "Cannot resolve keyword item into field"

/-- The `item` keyword used by the transfer queries is not a `Stock`
column. -/
theorem item_not_a_stock_column : stockFields.contains "item" = false := by
  decide

/-- The three values of `StockTransfer.STATUS_CHOICES`. -/
inductive TransferStatus
  | pending
  | approved
  | rejected
deriving DecidableEq, Repr

/-- A `StockTransfer` record: source and destination warehouses, item,
quantity, status, and the nullable approval timestamp. -/
structure StockTransfer where
  from_warehouse : Nat
  to_warehouse : Nat
  item : Nat
  quantity : Int
  status : TransferStatus
  approved_at : Option Nat
deriving DecidableEq, Repr

/-- `StockTransfer.clean`: reject a non-positive quantity and identical
source and destination warehouses with validation errors; every transfer
that passes those two checks reaches `Stock.objects.get(warehouse=…,
item=self.item)`, whose unresolvable `item` keyword raises `FieldError`
while the query is built — uncaught, since the `try` handles only
`Stock.DoesNotExist` — so the stock-sufficiency and missing-record checks
are never performed and the stock table is never consulted. -/
def StockTransfer.clean (t : StockTransfer) (_db : List Stock) : Except PyExc Unit :=
  if t.quantity ≤ 0 then
    Except.error (PyExc.validationError "the quantity must be greater than zero")
  else if t.from_warehouse = t.to_warehouse then
    Except.error (PyExc.validationError
      "the source and destination warehouses cannot be the same")
  else
    Except.error stockItemKeywordError

/-- `StockTransfer.save`: when the status is approved and `approved_at` is
still unset, the stock-update block runs `Stock.objects.get(warehouse=…,
item=self.item)`, which raises `FieldError` (the `except Stock.DoesNotExist`
clause does not catch it), so the save aborts before reading, writing or
creating any stock row; every other save performs no stock access at all and
leaves the table as it was. -/
def StockTransfer.save (t : StockTransfer) (db : List Stock) (_now : Nat) :
    Except PyExc (StockTransfer × List Stock) :=
  if t.status = TransferStatus.approved ∧ t.approved_at = none then
    Except.error stockItemKeywordError
  else
    Except.ok (t, db)

/-- C5, against the code as written: the quantity and same-warehouse
validations do fail as claimed, but no transfer is ever checked against the
stock table — any transfer with a positive quantity and distinct warehouses
makes `clean` raise the uncaught `FieldError` of the unresolvable `item`
lookup keyword, never the insufficient-stock or missing-record validation
errors and never success, whatever the stock table holds. -/
theorem stock_transfer_clean_field_error (t : StockTransfer) (db : List Stock)
    (hq : 0 < t.quantity) (hw : t.from_warehouse ≠ t.to_warehouse) :
    t.clean db = Except.error stockItemKeywordError := by
  unfold StockTransfer.clean
  rw [if_neg (by omega), if_neg hw]

/-- The claim's insufficient-stock example transfer: 15 units of item 5 from
warehouse 0 to warehouse 1 (the stock table holds only 10). -/
def exTransfer15 : StockTransfer :=
  { from_warehouse := 0
    to_warehouse := 1
    item := 5
    quantity := 15
    status := TransferStatus.pending
    approved_at := none }

/-- A stock table holding one row: 10 units of item-unit 9 in warehouse 0. -/
def exStockTable : List Stock := [⟨0, 9, 10⟩]

/-- Witness for C5's failing input: the claim's insufficient-stock example
raises the `FieldError` of the bad lookup keyword, not the insufficient-stock
validation error. -/
theorem stock_transfer_clean_field_error_witness :
    exTransfer15.clean exStockTable = Except.error stockItemKeywordError :=
  stock_transfer_clean_field_error exTransfer15 exStockTable (by decide) (by decide)

/-- C3, against the code as written: the approved-transfer stock mutation
never happens — a save with status approved and `approved_at` unset aborts
with the uncaught `FieldError` of the stock lookup before any row is read,
decremented, incremented, created or stamped. -/
theorem stock_transfer_approved_save_field_error (t : StockTransfer)
    (db : List Stock) (now : Nat)
    (hstatus : t.status = TransferStatus.approved)
    (hnew : t.approved_at = none) :
    t.save db now = Except.error stockItemKeywordError := by
  unfold StockTransfer.save
  rw [if_pos ⟨hstatus, hnew⟩]

/-- A concrete transfer: 4 units of item 5 from warehouse 0 to warehouse 1,
marked approved but not yet stamped. -/
def exTransfer : StockTransfer :=
  { from_warehouse := 0
    to_warehouse := 1
    item := 5
    quantity := 4
    status := TransferStatus.approved
    approved_at := none }

/-- Witness for C3's failing input: the first save of the approved transfer
crashes with the `FieldError` of the bad lookup keyword instead of applying
the stock mutation. -/
theorem stock_transfer_approved_save_field_error_witness :
    exTransfer.save exStockTable 7 = Except.error stockItemKeywordError :=
  stock_transfer_approved_save_field_error exTransfer exStockTable 7 rfl rfl

/-!
### Transactions and the double-entry check
A `TransactionItem` row carries its parent transaction's date, its account,
its money amount and its debit flag.  `Transaction.clean` aggregates the
amounts of the transaction's debit rows and of its credit rows: the ORM
aggregate returns `None` for an empty row set and the summed amount column
otherwise, and each side is written `aggregate or Money(0,
journal.currency)`.  The `or` evaluates its right operand exactly when the
left one is falsy — `None`, or a zero sum — and the name `Money` is not
imported in the tally module (only `MoneyField` is), so that fallback raises
`NameError`.  Only when both sides are non-empty with nonzero sums does the
comparison run, rejecting the transaction when the totals differ.
-/

/-- A `TransactionItem` row: parent transaction date, account code, amount,
debit flag. -/
structure TransactionItem where
  date : Int
  account_code : String
  amount : Money
  is_debit : Bool
deriving DecidableEq, Repr

/-- The ORM `aggregate(Sum(amount))`: `none` for an empty row set, otherwise
the sum of the numeric amount column. -/
def aggregateSum (items : List TransactionItem) : Option ℚ :=
  match items with
  | [] => none
  | _ => some ((items.map fun it => it.amount.value).sum)

/-- The exception raised by evaluating `Money(0, …)` anywhere in the tally
module: the name `Money` is never imported there. -/
def moneyNameError : PyExc := PyExc.nameError "name Money is not defined"

/-- The left operand of the tally module's `aggregate or Money(0, …)`
pattern when it is truthy: `none` when the aggregate is falsy — no rows, so
the ORM yields `None`, or a zero sum — in which case Python evaluates the
`Money(0, …)` fallback instead. -/
def truthyAggregate (items : List TransactionItem) : Option ℚ :=
  match aggregateSum items with
  | none => none
  | some v => if v = 0 then none else some v

/-- `Transaction.clean`: compute `debit_sum` and then `credit_sum` as
`aggregate or Money(0, journal.currency)` — a falsy aggregate makes the
fallback run and raise `NameError` — and, when both are truthy, reject the
transaction with a validation error when they differ. -/
def Transaction.clean (_journal_currency : Currency) (items : List TransactionItem) :
    Except PyExc Unit :=
  match truthyAggregate (items.filter fun it => it.is_debit) with
  | none => Except.error moneyNameError
  | some debit_sum =>
    match truthyAggregate (items.filter fun it => !it.is_debit) with
    | none => Except.error moneyNameError
    | some credit_sum =>
      if debit_sum ≠ credit_sum then
        Except.error (PyExc.validationError
          "the sum of the debits must equal the sum of the credits")
      else Except.ok ()

/-- C4, against the code as written and evaluated at concrete transactions
(journal currency CDF): a transaction with a single debit of 100 and no
credit rows — unbalanced, so the claim expects a validation error — crashes
with `NameError` instead, the empty credit aggregate being falsy; an empty
transaction — balanced, so the claim expects success — also crashes with
`NameError`; only with both sides non-empty and nonzero does the check
behave as claimed: 100 against 40 is rejected with the validation error, and
100 against 100 passes. -/
theorem transaction_clean_eval :
    Transaction.clean Currency.CDF [⟨0, "701", ⟨100, Currency.CDF⟩, true⟩]
        = Except.error moneyNameError ∧
      Transaction.clean Currency.CDF [] = Except.error moneyNameError ∧
      Transaction.clean Currency.CDF
          [⟨0, "701", ⟨100, Currency.CDF⟩, true⟩, ⟨1, "701", ⟨40, Currency.CDF⟩, false⟩]
        = Except.error (PyExc.validationError
            "the sum of the debits must equal the sum of the credits") ∧
      Transaction.clean Currency.CDF
          [⟨0, "701", ⟨100, Currency.CDF⟩, true⟩, ⟨1, "701", ⟨100, Currency.CDF⟩, false⟩]
        = Except.ok () := by
  refine ⟨?_, ?_, ?_, ?_⟩ <;>
    norm_num [Transaction.clean, truthyAggregate, aggregateSum]

/-!
### CashAccount and AccountTransfer
`AccountTransfer.save` converts the transferred amount into the destination
account's currency when the two account currencies differ (the money-by-rate
product keeps the source currency, so the code then reassigns the currency
attribute), and otherwise copies the amount and forces the rate to 1.
-/

/-- A `CashAccount`: account number, currency, balance. -/
structure CashAccount where
  account_number : String
  currency : Currency
  balance : Money
deriving DecidableEq, Repr

/-- An `AccountTransfer` record between two cash accounts. -/
structure AccountTransfer where
  from_account : CashAccount
  to_account : CashAccount
  amount : Money
  exchange_rate : ℚ
  amount_converted : Money
deriving DecidableEq, Repr

/-- `AccountTransfer.save`: when the account currencies differ, set
`amount_converted := amount * exchange_rate` and then reassign its currency
to the destination currency; otherwise copy the amount and force the rate
to 1. -/
def AccountTransfer.save (t : AccountTransfer) : AccountTransfer :=
  if t.from_account.currency ≠ t.to_account.currency then
    { t with amount_converted :=
        (t.amount.mulRate t.exchange_rate).withCurrency t.to_account.currency }
  else
    { t with amount_converted := t.amount, exchange_rate := 1 }

/-- C6: saving an account transfer whose account currencies differ stores
`amount × exchange_rate` expressed in the destination currency as
`amount_converted`; saving one whose currencies match stores the amount
unchanged and forces the exchange rate to 1. -/
theorem account_transfer_save_conversion (t : AccountTransfer) :
    (t.from_account.currency ≠ t.to_account.currency →
      t.save.amount_converted = ⟨t.amount.value * t.exchange_rate, t.to_account.currency⟩) ∧
    (t.from_account.currency = t.to_account.currency →
      t.save.amount_converted = t.amount ∧ t.save.exchange_rate = 1) := by
  constructor
  · intro h
    simp [AccountTransfer.save, h, Money.mulRate, Money.withCurrency]
  · intro h
    simp [AccountTransfer.save, h]

/-- A USD cash account. -/
def accUSD : CashAccount :=
  { account_number := "A1", currency := Currency.USD, balance := ⟨0, Currency.USD⟩ }

/-- A CDF cash account. -/
def accCDF : CashAccount :=
  { account_number := "A2", currency := Currency.CDF, balance := ⟨0, Currency.CDF⟩ }

/-- A second CDF cash account. -/
def accCDF2 : CashAccount :=
  { account_number := "A3", currency := Currency.CDF, balance := ⟨0, Currency.CDF⟩ }

/-- A cross-currency transfer: 100 USD to a CDF account at rate 2. -/
def exXferDiff : AccountTransfer :=
  { from_account := accUSD
    to_account := accCDF
    amount := ⟨100, Currency.USD⟩
    exchange_rate := 2
    amount_converted := ⟨0, Currency.CDF⟩ }

/-- A same-currency transfer: 100 CDF between two CDF accounts, with the
caller-supplied rate 5 that the save must override. -/
def exXferSame : AccountTransfer :=
  { from_account := accCDF
    to_account := accCDF2
    amount := ⟨100, Currency.CDF⟩
    exchange_rate := 5
    amount_converted := ⟨0, Currency.CDF⟩ }

/-- Witness for C6: the cross-currency transfer converts 100 USD at rate 2
into CDF, and the same-currency transfer keeps its amount and gets rate 1. -/
theorem account_transfer_save_conversion_witness :
    exXferDiff.save.amount_converted = ⟨(100 : ℚ) * 2, Currency.CDF⟩ ∧
      exXferSame.save.amount_converted = ⟨100, Currency.CDF⟩ ∧
      exXferSame.save.exchange_rate = 1 := by
  refine ⟨?_, ?_, ?_⟩
  · exact (account_transfer_save_conversion exXferDiff).1 (by decide)
  · exact ((account_transfer_save_conversion exXferSame).2 rfl).1
  · exact ((account_transfer_save_conversion exXferSame).2 rfl).2

/-!
### Order and its saved-currency conversion
`Order.save` compares the amount's currency with the order's target saved
currency; when they differ it looks the pair up in the `ExchangeRate` table
(an exact match; absence is a hard error) and stores the converted amount,
and when they match it stores the amount itself.
-/

/-- An `Order`: order number, amount, the target saved currency the save
converts into, and the nullable converted amount. -/
structure Order where
  order_num : String
  amount : Money
  currency_saved : Currency
  amount_converted : Option Money
deriving DecidableEq, Repr

/-- `Order.save`: convert the amount into the saved currency via the
exchange-rate table when the currencies differ (missing rate is an error),
else store the amount unchanged. -/
def Order.save (o : Order) (rates : List ExchangeRate) : Except String Order :=
  if o.amount.currency ≠ o.currency_saved then
    match lookupRate rates o.amount.currency o.currency_saved with
    | none => Except.error "no exchange rate found for the currency pair"
    | some rate =>
      Except.ok { o with amount_converted := some (convert_to o.amount o.currency_saved rate) }
  else
    Except.ok { o with amount_converted := some o.amount }

/-- C7: when the amount's currency differs from the saved currency and the
exchange-rate table holds a rate `r` for the pair, saving stores
`amount × r` in the saved currency; when no rate exists the save fails; and
when the currencies match it stores the amount itself. -/
theorem order_save_conversion (o : Order) (rates : List ExchangeRate) :
    (∀ r : ℚ, o.amount.currency ≠ o.currency_saved →
      lookupRate rates o.amount.currency o.currency_saved = some r →
      o.save rates
        = Except.ok { o with amount_converted := some ⟨o.amount.value * r, o.currency_saved⟩ }) ∧
    (o.amount.currency ≠ o.currency_saved →
      lookupRate rates o.amount.currency o.currency_saved = none →
      ∃ msg, o.save rates = Except.error msg) ∧
    (o.amount.currency = o.currency_saved →
      o.save rates = Except.ok { o with amount_converted := some o.amount }) := by
  refine ⟨?_, ?_, ?_⟩
  · intro r hne hr
    simp [Order.save, hne, hr, convert_to]
  · intro hne hr
    refine ⟨"no exchange rate found for the currency pair", ?_⟩
    simp [Order.save, hne, hr]
  · intro he
    simp [Order.save, he]

/-- The claim's order: 100 USD, to be saved in CDF. -/
def exOrder : Order :=
  { order_num := "O1"
    amount := ⟨100, Currency.USD⟩
    currency_saved := Currency.CDF
    amount_converted := none }

/-- The claim's exchange-rate table: USD to CDF at 2500. -/
def exRates : List ExchangeRate := [⟨Currency.USD, Currency.CDF, 2500⟩]

/-- Witness for C7, at the claim's own numbers: 100 USD saved in CDF under
rate 2500 stores 250000 CDF. -/
theorem order_save_conversion_witness :
    exOrder.save exRates
      = Except.ok { exOrder with amount_converted := some ⟨250000, Currency.CDF⟩ } := by
  have h := (order_save_conversion exOrder exRates).1 2500 (by decide) rfl
  rw [h]
  norm_num [exOrder]

/-!
### Trial balance generation
`generate_trial_balance` walks every account and aggregates its debit and
credit items over the period's date range.  Each side is written `aggregate
or Money(0, account.currency)`: as in `Transaction.clean`, a falsy aggregate
(no rows in the period, or a zero sum) makes the `Money` fallback run and
raise `NameError`, `Money` being unimported in the tally module — so
generation crashes for any account with an empty or zero-sum side, whatever
the rate table holds.  When both sides are truthy (carried in the account's
currency, the account's items having been stored in it), the balance is
their difference, and — when the target currency differs from the
account's — the three aggregate figures are converted with the rate looked
up for the pair, a missing rate raising `ValueError`.
-/

/-- An `Account` of the chart of accounts: ledger code and currency. -/
structure Account where
  code : String
  currency : Currency
deriving DecidableEq, Repr

/-- One line of the generated trial balance. -/
structure TrialBalanceEntry where
  account : Account
  debit : Money
  credit : Money
  balance : Money
deriving DecidableEq, Repr

/-- The item rows of one account on one side (debit or credit) within the
period's date range, as filtered by the trial-balance query. -/
def periodItems (items : List TransactionItem) (startD endD : Int) (code : String)
    (isDebit : Bool) : List TransactionItem :=
  items.filter fun it =>
    decide (startD ≤ it.date) && decide (it.date ≤ endD) &&
      (it.account_code == code) && (it.is_debit == isDebit)

/-- The per-account aggregate of one side over the period, as the source
computes it: `aggregate or Money(0, account.currency)` raises `NameError`
when the aggregate is falsy (the fallback's name is unresolved); a truthy
aggregate is the summed amount column, carried in the account's currency. -/
def accountAggregate (items : List TransactionItem) (startD endD : Int) (a : Account)
    (isDebit : Bool) : Except PyExc Money :=
  match truthyAggregate (periodItems items startD endD a.code isDebit) with
  | none => Except.error moneyNameError
  | some v => Except.ok ⟨v, a.currency⟩

/-- `generate_trial_balance`: one entry per account; each account's two
side aggregates are computed first (a falsy side raises the `NameError` of
the unimported `Money` fallback, aborting the whole generation), then the
balance is their difference, and the three figures are converted into the
target currency when it differs from the account's — a missing rate for such
an account aborting the generation with a `ValueError`. -/
def generate_trial_balance (accounts : List Account) (items : List TransactionItem)
    (rates : List ExchangeRate) (startD endD : Int) (currency : Currency) :
    Except PyExc (List TrialBalanceEntry) :=
  match accounts with
  | [] => Except.ok []
  | a :: rest =>
    match accountAggregate items startD endD a true with
    | Except.error e => Except.error e
    | Except.ok debit_sum =>
      match accountAggregate items startD endD a false with
      | Except.error e => Except.error e
      | Except.ok credit_sum =>
        let balance : Money := ⟨debit_sum.value - credit_sum.value, a.currency⟩
        if currency ≠ a.currency then
          match lookupRate rates a.currency currency with
          | none =>
            Except.error (PyExc.valueError
              "no exchange rate found for the account currency")
          | some r =>
            match generate_trial_balance rest items rates startD endD currency with
            | Except.error e => Except.error e
            | Except.ok tb =>
              Except.ok (⟨a, convert_to debit_sum currency r,
                convert_to credit_sum currency r, convert_to balance currency r⟩ :: tb)
        else
          match generate_trial_balance rest items rates startD endD currency with
          | Except.error e => Except.error e
          | Except.ok tb => Except.ok (⟨a, debit_sum, credit_sum, balance⟩ :: tb)

/-- A USD ledger account with code 701. -/
def accLedgerUSD : Account := { code := "701", currency := Currency.USD }

/-- Ledger items on account 701 within dates 0..10: a debit of 100 and no
credit rows. -/
def exLedgerOnlyDebit : List TransactionItem :=
  [⟨5, "701", ⟨100, Currency.USD⟩, true⟩]

/-- Ledger items on account 701 within dates 0..10: a debit of 100 and a
credit of 40, both sides non-empty with nonzero sums. -/
def exLedgerItems : List TransactionItem :=
  [⟨5, "701", ⟨100, Currency.USD⟩, true⟩, ⟨6, "701", ⟨40, Currency.USD⟩, false⟩]

/-- A rate table holding USD to CDF at 2500. -/
def exLedgerRates : List ExchangeRate := [⟨Currency.USD, Currency.CDF, 2500⟩]

/-- C8, against the code as written and evaluated over the one-account USD
ledger with the USD-to-CDF rate present: with a debit of 100 and no credit
rows in the period the claim expects success (a zero credit aggregate
converted at 2500), but generation crashes with `NameError` — the empty
credit side makes the unimported-`Money` fallback run — even though every
rate exists; with both sides non-empty and nonzero (debit 100, credit 40)
generation succeeds, converting only the three final aggregates at 2500. -/
theorem generate_trial_balance_eval :
    generate_trial_balance [accLedgerUSD] exLedgerOnlyDebit exLedgerRates 0 10 Currency.CDF
        = Except.error moneyNameError ∧
      generate_trial_balance [accLedgerUSD] exLedgerItems exLedgerRates 0 10 Currency.CDF
        = Except.ok [⟨accLedgerUSD, ⟨250000, Currency.CDF⟩, ⟨100000, Currency.CDF⟩,
            ⟨150000, Currency.CDF⟩⟩] := by
  constructor
  · norm_num [generate_trial_balance, accountAggregate, truthyAggregate, aggregateSum,
      periodItems, accLedgerUSD, exLedgerOnlyDebit, exLedgerRates, lookupRate, convert_to]
  · norm_num [generate_trial_balance, accountAggregate, truthyAggregate, aggregateSum,
      periodItems, accLedgerUSD, exLedgerItems, exLedgerRates, lookupRate, convert_to]
    decide

end Ombi
